import Mathlib

set_option maxHeartbeats 1000000

/-!
Formal model of the entity factories in
`test/selenium/src/lib/entities/entities_factory.py`.

Python entity objects are mutable attribute bags; we model them as total
functions from attribute names to Python-like values, with in-place
`setattr` mutation modelled as functional update.  Keyword-argument
dictionaries are modelled as association lists.  Randomness (uuid tokens,
random characters, random choices) is made explicit: every random draw the
source performs is passed in as a parameter, so each factory becomes a pure
function of its inputs and its random draws.  The external object-count
REST service consulted by `clone`/`generate` is modelled by passing its
integer result as a parameter.
-/

/-- Python-like runtime values stored in entity attribute bags.  Only the
value shapes the factory module actually manipulates are included; the
`strlist` constructor covers the multi-choice-options string lists. -/
inductive PyVal where
  | none
  | str (s : String)
  | int (n : Int)
  | bool (b : Bool)
  | strlist (xs : List String)
deriving DecidableEq, Repr

/-- Python truthiness for the modelled values (`None`, `""`, `0`, `False`
and `[]` are falsy, everything else truthy). -/
def PyVal.truthy : PyVal → Bool
  | .none => false
  | .str s => s != ""
  | .int n => n != 0
  | .bool b => b
  | .strlist xs => !xs.isEmpty

/-- Numeric view of a Python value: `bool` is an `int` subtype in Python, so
it participates in numeric comparison and arithmetic. -/
def PyVal.toNumber? : PyVal → Option Int
  | .int n => some n
  | .bool b => some (if b then 1 else 0)
  | _ => Option.none

/-- Python `==` on the modelled values: numeric values compare by value
(so `True == 1`), everything else compares structurally. -/
def pyEq (a b : PyVal) : Bool :=
  match a.toNumber?, b.toNumber? with
  | some m, some n => m == n
  | _, _ => a == b

/-- String view of a Python value.  The source applies `+`/`re.sub` to
attribute values that are strings in every reachable state; for non-string
values Python would raise a TypeError, which is unreachable under the
hypotheses of the theorems below (we default to `""`). -/
def PyVal.strD : PyVal → String
  | .str s => s
  | _ => ""

/-- An entity attribute bag: a total map from attribute names to values.
Attributes never assigned hold `PyVal.none` (unset). -/
abbrev Obj := String → PyVal

/-- Python `setattr`, modelled as functional update of the attribute bag. -/
def setattr (obj : Obj) (name : String) (v : PyVal) : Obj :=
  fun a => if a = name then v else obj a

/-- Modelled from the spec: the entity value types of `lib.entities.entity`
(not among the sources under verification) are plain field bags; a freshly
constructed entity has every field unset. -/
def emptyEntity : Obj := fun _ => PyVal.none

/-- A keyword-argument dictionary, as an association list in call order. -/
abbrev Args := List (String × PyVal)

/-- Python `dict.get(key)` with default `None`. -/
def dictGet (arguments : Args) (key : String) : PyVal :=
  match arguments.find? (fun p => p.1 == key) with
  | some p => p.2
  | Option.none => PyVal.none

/-- `EntitiesFactory.update_obj_attrs_values`: for every name in the
allow-list, if the same-named keyword argument is truthy, write it onto the
object; the (mutated) object is returned.  The Python list comprehension
performs the `setattr` calls in allow-list order. -/
def update_obj_attrs_values (obj : Obj) (attrs_names : List String)
    (arguments : Args) : Obj :=
  match attrs_names with
  | [] => obj
  | attr_name :: rest =>
      update_obj_attrs_values
        (if (dictGet arguments attr_name).truthy then
           setattr obj attr_name (dictGet arguments attr_name)
         else obj)
        rest arguments

theorem update_apply (obj : Obj) (attrs_names : List String) (arguments : Args)
    (a : String) :
    update_obj_attrs_values obj attrs_names arguments a =
      if a ∈ attrs_names ∧ (dictGet arguments a).truthy then dictGet arguments a
      else obj a := by
  induction attrs_names generalizing obj with
  | nil => simp [update_obj_attrs_values]
  | cons n rest ih =>
      show update_obj_attrs_values _ rest arguments a = _
      rw [ih]
      by_cases hna : a = n
      · subst hna
        by_cases ht : (dictGet arguments a).truthy
        · by_cases hmem : a ∈ rest <;> simp [ht, hmem, setattr]
        · simp [ht, setattr]
      · by_cases ht : (dictGet arguments n).truthy <;>
          simp [setattr, hna, ht, List.mem_cons]

theorem dictGet_not_mem (arguments : Args) (key : String)
    (h : key ∉ arguments.map Prod.fst) : dictGet arguments key = PyVal.none := by
  induction arguments with
  | nil => rfl
  | cons p rest ih =>
      have h1 : ¬ p.1 = key := by
        intro hk
        exact h (by simp [List.map_cons, hk])
      have h2 : key ∉ rest.map Prod.fst := by
        intro hk
        exact h (by simp only [List.map_cons, List.mem_cons]; exact Or.inr hk)
      have hfind : (p :: rest).find? (fun q => q.1 == key) =
          rest.find? (fun q => q.1 == key) :=
        List.find?_cons_of_neg _ (by simp [h1])
      show dictGet (p :: rest) key = PyVal.none
      simp only [dictGet]
      rw [hfind]
      exact ih h2

theorem dictGet_all_none (arguments : Args)
    (h : ∀ p ∈ arguments, p.2 = PyVal.none) (key : String) :
    dictGet arguments key = PyVal.none := by
  induction arguments with
  | nil => rfl
  | cons p rest ih =>
      simp only [dictGet, List.find?]
      by_cases hpk : (p.1 == key) = true
      · simp [hpk]
        exact h p (List.mem_cons_self p rest)
      · simp only [Bool.not_eq_true] at hpk
        simp only [hpk]
        exact ih fun q hq => h q (List.mem_cons_of_mem p hq)

theorem update_all_none (obj : Obj) (attrs_names : List String) (arguments : Args)
    (h : ∀ p ∈ arguments, p.2 = PyVal.none) :
    update_obj_attrs_values obj attrs_names arguments = obj := by
  funext a
  rw [update_apply]
  simp [dictGet_all_none arguments h a, PyVal.truthy]

/-- An entity attribute bag with a couple of generated values, used as a
concrete input in witnesses. -/
def demoEntity : Obj := fun a =>
  if a = "title" then PyVal.str "generated" else
  if a = "id" then PyVal.int 7 else PyVal.none

/-- C1: `update_obj_attrs_values` writes each override key that is in the
allow-list and truthy verbatim onto the entity; keys whose value is absent
or falsy leave the entity value untouched; attributes outside the override
keys are unaltered.  (The Python function mutates the object in place and
returns the same instance; in the functional model the returned bag is the
in-place-updated map, so the contract is stated pointwise on it.) -/
theorem c1_update_obj_attrs_values_contract (obj : Obj)
    (attrs_names : List String) (arguments : Args) :
    (∀ a, a ∈ attrs_names → (dictGet arguments a).truthy = true →
        update_obj_attrs_values obj attrs_names arguments a = dictGet arguments a) ∧
    (∀ a, (dictGet arguments a).truthy = false →
        update_obj_attrs_values obj attrs_names arguments a = obj a) ∧
    (∀ a, a ∉ arguments.map Prod.fst →
        update_obj_attrs_values obj attrs_names arguments a = obj a) := by
  refine ⟨?_, ?_, ?_⟩ <;> intro a
  · intro hmem ht
    rw [update_apply]
    simp [hmem, ht]
  · intro ht
    rw [update_apply]
    simp [ht]
  · intro hmem
    rw [update_apply]
    simp [dictGet_not_mem arguments a hmem, PyVal.truthy]

theorem c1_witness :
    update_obj_attrs_values demoEntity ["title", "id"]
      [("title", PyVal.str "x"), ("id", PyVal.int 0)] "title" = PyVal.str "x" ∧
    update_obj_attrs_values demoEntity ["title", "id"]
      [("title", PyVal.str "x"), ("id", PyVal.int 0)] "id" = PyVal.int 7 ∧
    update_obj_attrs_values demoEntity ["title", "id"]
      [("title", PyVal.str "x"), ("id", PyVal.int 0)] "type" = PyVal.none := by
  have h := c1_update_obj_attrs_values_contract demoEntity ["title", "id"]
      [("title", PyVal.str "x"), ("id", PyVal.int 0)]
  refine ⟨?_, ?_, ?_⟩
  · rw [h.1 "title" (by decide) (by decide)]
    decide
  · rw [h.2.1 "id" (by decide)]
    decide
  · rw [h.2.2 "type" (by decide)]
    decide

/-- Modelled from the spec: canonical singular domain-type names, produced in
the source by `objects.get_singular` over the constant tables of
`lib.constants.objects`, which is not among the sources under verification. -/
def obj_person : String := "person"

def obj_program : String := "program"

def obj_control : String := "control"

def obj_audit : String := "audit"

def obj_asmt_tmpl : String := "assessment_template"

def obj_asmt : String := "assessment"

def obj_issue : String := "issue"

/-- Modelled from the spec: role-name constants of `lib.constants.roles`
(default user, no-role, object owners), not among the verified sources. -/
def DEFAULT_USER : String := "Example User"

def NO_ROLE : String := "No Role"

def OBJECT_OWNERS : String := "Object Owners"

/-- Modelled from the spec: lifecycle-state and common constants of
`lib.constants.element`, not among the verified sources. -/
def STATE_DRAFT : String := "Draft"

def STATE_PLANNED : String := "Planned"

def STATE_NOT_STARTED : String := "Not Started"

def COMMON_FALSE : String := "false"

/-- Modelled from the spec: configured default email domain
(`lib.constants.url.DEFAULT_EMAIL_DOMAIN`). -/
def DEFAULT_EMAIL_DOMAIN : String := "example.com"

/-- Modelled from the spec: plural name constant `objects.CONTROLS`. -/
def CONTROLS_PLURAL : String := "controls"

/-- Modelled from the spec: custom-attribute kind labels of
`lib.constants.element.AdminWidgetCustomAttrs`, not among the verified
sources. -/
def CA_TEXT : String := "Text"

def CA_RICH_TEXT : String := "Rich Text"

def CA_DATE : String := "Date"

def CA_CHECKBOX : String := "Checkbox"

def CA_DROPDOWN : String := "Dropdown"

def CA_PERSON : String := "Map:Person"

def ALL_ATTRS_TYPES : List String :=
  [CA_TEXT, CA_RICH_TEXT, CA_DATE, CA_CHECKBOX, CA_DROPDOWN, CA_PERSON]

/-- Modelled from the spec: `string_utils.random_string(size, chars)` returns
a string of the requested size whose characters are drawn from the given
alphabet.  The random draws are made explicit as a choice function `pick`;
the theorems that need the alphabet guarantee take it as a hypothesis on
`pick`. -/
def random_string (size : Nat) (pick : Nat → Char) : String :=
  String.mk ((List.range size).map pick)

/-- Modelled from the spec: `string_utils.random_list_strings(list_len)`
returns `list_len` random strings, the draws made explicit via `gen`. -/
def random_list_strings (list_len : Nat) (gen : Nat → String) : List String :=
  (List.range list_len).map gen

/-- `EntitiesFactory._generate_title`: `"{obj_type}_{uuid}_{rand_str}"`, where
`rand_str` is a random string over the special-character alphabet whose size
is the length of that full alphabet (`string_utils.SPECIAL`, modelled as the
parameter `special`). -/
def _generate_title (special : String) (obj_type : String) (uuid : String)
    (pick : Nat → Char) : String :=
  obj_type ++ "_" ++ uuid ++ "_" ++ random_string special.length pick

/-- `EntitiesFactory._generate_code`: just the random uuid token. -/
def _generate_code (uuid : String) : String := uuid

/-- `EntitiesFactory._generate_email`: `"{mail_name}@{domain}"`. -/
def _generate_email (uuid : String) (domain : String) : String :=
  uuid ++ "@" ++ domain

/-- Modelled from the spec: `entity.Entity().attrs_names_all_entities()`,
the union of the recognized attribute names across all entity value types of
`lib.entities.entity` (not among the verified sources); it contains every
attribute name the factories pass to `update_obj_attrs_values`. -/
def all_objs_attrs_names : List String :=
  ["title", "id", "href", "url", "type", "email", "authorizations",
   "manager", "owner", "primary_contact", "code", "state", "status",
   "last_update", "program", "audit", "audit_lead", "asmt_objects",
   "def_assessors", "def_verifiers", "object", "creators", "assignees",
   "is_verified"]

/-- The random draws one factory `create` call performs: a uuid and a
character choice for the generated title, a uuid for the generated code and
one for the generated email. -/
structure EntityRand where
  titleUuid : String
  titlePick : Nat → Char
  codeUuid : String
  emailUuid : String

/-- True when the string ends with an ASCII digit (so `re.sub("\d+$", ...)`
has a match ending at the end of the string). -/
def endsInDigit (s : String) : Bool :=
  match s.toList.getLast? with
  | some c => c.isDigit
  | Option.none => false

/-- The string with its maximal trailing run of digits removed. -/
def stripTrailing (s : String) : String :=
  String.mk ((s.toList.reverse.dropWhile Char.isDigit).reverse)

/-- The maximal trailing run of digits of the string. -/
def trailingDigits (s : String) : List Char :=
  (s.toList.reverse.takeWhile Char.isDigit).reverse

/-- Model of Python 2 `re.sub("\d+$", repl, s)`: without `re.MULTILINE`,
`$` matches at the end of the string or just before a newline that ends the
string, so the (single possible) match is the maximal digit run ending
there; if there is none the string is returned unchanged. -/
def pySubTrailingDigits (repl : String) (s : String) : String :=
  match s.toList.getLast? with
  | some c =>
      if c = '\n' then
        let body := s.toList.dropLast
        if body.reverse.takeWhile Char.isDigit = [] then s
        else String.mk ((body.reverse.dropWhile Char.isDigit).reverse) ++ repl ++
          String.mk ['\n']
      else
        if trailingDigits s = [] then s
        else stripTrailing s ++ repl
  | Option.none => s

theorem string_mk_append (a b : List Char) :
    String.mk (a ++ b) = String.mk a ++ String.mk b := rfl

theorem pySub_of_endsInDigit (repl s : String) (hd : endsInDigit s = true) :
    pySubTrailingDigits repl s = stripTrailing s ++ repl ∧
    s = stripTrailing s ++ String.mk (trailingDigits s) ∧
    trailingDigits s ≠ [] ∧ (trailingDigits s).all Char.isDigit = true := by
  unfold endsInDigit at hd
  obtain ⟨c, hc, hcd⟩ : ∃ c, s.toList.getLast? = some c ∧ c.isDigit = true := by
    cases hlast : s.toList.getLast? with
    | none => rw [hlast] at hd; exact absurd hd (by simp)
    | some c => rw [hlast] at hd; exact ⟨c, rfl, hd⟩
  have hrev : s.toList.reverse.head? = some c := by
    rw [List.head?_reverse]; exact hc
  obtain ⟨tl, htl⟩ : ∃ tl, s.toList.reverse = c :: tl := by
    cases hr : s.toList.reverse with
    | nil => rw [hr] at hrev; exact absurd hrev (by simp)
    | cons x xs =>
        rw [hr] at hrev
        simp only [List.head?_cons, Option.some.injEq] at hrev
        exact ⟨xs, by rw [hrev]⟩
  have htake : s.toList.reverse.takeWhile Char.isDigit =
      c :: tl.takeWhile Char.isDigit := by
    rw [htl, List.takeWhile_cons_of_pos hcd]
  have htrail_ne : trailingDigits s ≠ [] := by
    unfold trailingDigits
    rw [htake]
    simp
  have hcnl : ¬ c = '\n' := by
    intro h
    rw [h] at hcd
    exact absurd hcd (by decide)
  refine ⟨?_, ?_, htrail_ne, ?_⟩
  · unfold pySubTrailingDigits
    rw [hc]
    simp only [hcnl, if_false, htrail_ne, if_neg (htrail_ne)]
  · unfold stripTrailing trailingDigits
    rw [← string_mk_append]
    have hsplit : s.toList.reverse.takeWhile Char.isDigit ++
        s.toList.reverse.dropWhile Char.isDigit = s.toList.reverse :=
      List.takeWhile_append_dropWhile (p := Char.isDigit) (l := s.toList.reverse)
    have : (s.toList.reverse.dropWhile Char.isDigit).reverse ++
        (s.toList.reverse.takeWhile Char.isDigit).reverse = s.toList := by
      rw [← List.reverse_append, hsplit, List.reverse_reverse]
    rw [this]
    cases s
    rfl
  · unfold trailingDigits
    rw [List.all_eq_true]
    intro x hx
    rw [List.mem_reverse] at hx
    exact List.mem_takeWhile_imp hx

/-- `PersonsFactory._create_random_person`: fresh Person entity with a
generated title, the canonical type, a generated email and no role. -/
def _create_random_person (special : String) (r : EntityRand) : Obj :=
  setattr (setattr (setattr (setattr emptyEntity
    "title" (PyVal.str (_generate_title special obj_person r.titleUuid r.titlePick)))
    "type" (PyVal.str obj_person))
    "email" (PyVal.str (_generate_email r.emailUuid DEFAULT_EMAIL_DOMAIN)))
    "authorizations" (PyVal.str NO_ROLE)

/-- `PersonsFactory.create`: random person updated with the keyword
overrides. -/
def personsCreate (special : String) (r : EntityRand)
    (title id href url type email authorizations : PyVal) : Obj :=
  update_obj_attrs_values (_create_random_person special r) all_objs_attrs_names
    [("title", title), ("id", id), ("href", href), ("url", url),
     ("type", type), ("email", email), ("authorizations", authorizations)]

/-- `ProgramsFactory._create_random_program`. -/
def _create_random_program (special : String) (r : EntityRand) : Obj :=
  setattr (setattr (setattr (setattr (setattr (setattr emptyEntity
    "title" (PyVal.str (_generate_title special obj_program r.titleUuid r.titlePick)))
    "type" (PyVal.str obj_program))
    "code" (PyVal.str (_generate_code r.codeUuid)))
    "manager" (PyVal.str DEFAULT_USER))
    "primary_contact" (PyVal.str DEFAULT_USER))
    "state" (PyVal.str STATE_DRAFT)

/-- `ProgramsFactory.create`. -/
def programsCreate (special : String) (r : EntityRand)
    (title id href url type manager primary_contact code state last_update : PyVal) :
    Obj :=
  update_obj_attrs_values (_create_random_program special r) all_objs_attrs_names
    [("title", title), ("id", id), ("href", href), ("url", url),
     ("type", type), ("manager", manager), ("primary_contact", primary_contact),
     ("code", code), ("state", state), ("last_update", last_update)]

/-- `ControlsFactory._create_random_control`. -/
def _create_random_control (special : String) (r : EntityRand) : Obj :=
  setattr (setattr (setattr (setattr (setattr (setattr emptyEntity
    "title" (PyVal.str (_generate_title special obj_control r.titleUuid r.titlePick)))
    "type" (PyVal.str obj_control))
    "code" (PyVal.str (_generate_code r.codeUuid)))
    "owner" (PyVal.str DEFAULT_USER))
    "primary_contact" (PyVal.str DEFAULT_USER))
    "state" (PyVal.str STATE_DRAFT)

/-- `ControlsFactory.create`. -/
def controlsCreate (special : String) (r : EntityRand)
    (title id href url type owner primary_contact code state last_update : PyVal) :
    Obj :=
  update_obj_attrs_values (_create_random_control special r) all_objs_attrs_names
    [("title", title), ("id", id), ("href", href), ("url", url),
     ("type", type), ("owner", owner), ("primary_contact", primary_contact),
     ("code", code), ("state", state), ("last_update", last_update)]

/-- `AuditsFactory._create_random_audit`. -/
def _create_random_audit (special : String) (r : EntityRand) : Obj :=
  setattr (setattr (setattr (setattr (setattr emptyEntity
    "title" (PyVal.str (_generate_title special obj_audit r.titleUuid r.titlePick)))
    "type" (PyVal.str obj_audit))
    "code" (PyVal.str (_generate_code r.codeUuid)))
    "audit_lead" (PyVal.str DEFAULT_USER))
    "status" (PyVal.str STATE_PLANNED)

/-- `AuditsFactory.create`. -/
def auditsCreate (special : String) (r : EntityRand)
    (title id href url type program audit_lead code status last_update : PyVal) :
    Obj :=
  update_obj_attrs_values (_create_random_audit special r) all_objs_attrs_names
    [("title", title), ("id", id), ("href", href), ("url", url),
     ("type", type), ("program", program), ("audit_lead", audit_lead),
     ("code", code), ("status", status), ("last_update", last_update)]

/-- Model of Python str.upper() for the ASCII type names it is applied to. -/
def pyUpper (s : String) : String :=
  String.mk (s.data.map Char.toUpper)

/-- `AuditsFactory.clone`: queries the external count service (its result is
the parameter `actual_count`, modelled from the spec since the REST service
is not among the verified sources) and proceeds only when the count equals
the source audit's id; each of the `count_to_clone` deep copies gets a
suffixed title, an incremented id, href/url with the trailing digits
replaced, and a derived code.  When the guard fails the Python function
falls off the end and returns `None`, modelled as `Option.none`. -/
def auditsClone (actual_count : Nat) (audit : Obj) (count_to_clone : Nat) :
    Option (List Obj) :=
  if pyEq (PyVal.int (Int.ofNat actual_count)) (audit "id") then
    some ((List.range count_to_clone).map (fun i =>
      update_obj_attrs_values audit all_objs_attrs_names
        [("title",
          PyVal.str ((audit "title").strD ++ " - copy " ++ Nat.repr (i + 1))),
         ("id", PyVal.int ((audit "id").toNumber?.getD 0 + Int.ofNat (i + 1))),
         ("href", PyVal.str (pySubTrailingDigits
           ((audit "id").toNumber?.getD 0 + Int.ofNat (i + 1)).repr
           (audit "href").strD)),
         ("url", PyVal.str (pySubTrailingDigits
           ((audit "id").toNumber?.getD 0 + Int.ofNat (i + 1)).repr
           (audit "url").strD)),
         ("code", PyVal.str (pyUpper obj_audit ++ "-" ++
           ((audit "id").toNumber?.getD 0 + Int.ofNat (i + 1)).repr))]))
  else Option.none

/-- `AssessmentTemplatesFactory._create_random_asmt_tmpl`. -/
def _create_random_asmt_tmpl (special : String) (r : EntityRand) : Obj :=
  setattr (setattr (setattr (setattr (setattr (setattr emptyEntity
    "title" (PyVal.str (_generate_title special obj_asmt_tmpl r.titleUuid r.titlePick)))
    "type" (PyVal.str obj_asmt_tmpl))
    "code" (PyVal.str (_generate_code r.codeUuid)))
    "asmt_objects" (PyVal.str CONTROLS_PLURAL))
    "def_assessors" (PyVal.str OBJECT_OWNERS))
    "def_verifiers" (PyVal.str OBJECT_OWNERS)

/-- `AssessmentTemplatesFactory.create`. -/
def asmtTmplsCreate (special : String) (r : EntityRand)
    (title id href url type audit asmt_objects def_assessors def_verifiers
     code last_update : PyVal) : Obj :=
  update_obj_attrs_values (_create_random_asmt_tmpl special r) all_objs_attrs_names
    [("title", title), ("id", id), ("href", href), ("url", url),
     ("type", type), ("audit", audit), ("asmt_objects", asmt_objects),
     ("def_assessors", def_assessors), ("def_verifiers", def_verifiers),
     ("code", code), ("last_update", last_update)]

/-- `AssessmentTemplatesFactory.clone`: like the audit clone but without a
title override and with a `TEMPLATE-` code; returns `None` (here
`Option.none`) when the count guard fails. -/
def asmtTmplsClone (actual_count : Nat) (asmt_tmpl : Obj) (count_to_clone : Nat) :
    Option (List Obj) :=
  if pyEq (PyVal.int (Int.ofNat actual_count)) (asmt_tmpl "id") then
    some ((List.range count_to_clone).map (fun i =>
      update_obj_attrs_values asmt_tmpl all_objs_attrs_names
        [("id",
          PyVal.int ((asmt_tmpl "id").toNumber?.getD 0 + Int.ofNat (i + 1))),
         ("href", PyVal.str (pySubTrailingDigits
           ((asmt_tmpl "id").toNumber?.getD 0 + Int.ofNat (i + 1)).repr
           (asmt_tmpl "href").strD)),
         ("url", PyVal.str (pySubTrailingDigits
           ((asmt_tmpl "id").toNumber?.getD 0 + Int.ofNat (i + 1)).repr
           (asmt_tmpl "url").strD)),
         ("code", PyVal.str ("TEMPLATE-" ++
           ((asmt_tmpl "id").toNumber?.getD 0 + Int.ofNat (i + 1)).repr))]))
  else Option.none

/-- `AssessmentsFactory._create_random_asmt`. -/
def _create_random_asmt (special : String) (r : EntityRand) : Obj :=
  setattr (setattr (setattr (setattr (setattr (setattr (setattr (setattr emptyEntity
    "title" (PyVal.str (_generate_title special obj_asmt r.titleUuid r.titlePick)))
    "type" (PyVal.str obj_asmt))
    "code" (PyVal.str (_generate_code r.codeUuid)))
    "object" (PyVal.str DEFAULT_USER))
    "creators" (PyVal.str DEFAULT_USER))
    "assignees" (PyVal.str DEFAULT_USER))
    "state" (PyVal.str STATE_NOT_STARTED))
    "is_verified" (PyVal.str COMMON_FALSE)

/-- `AssessmentsFactory.create`. -/
def asmtsCreate (special : String) (r : EntityRand)
    (title id href url type object audit creators assignees primary_contact
     is_verified code state last_update : PyVal) : Obj :=
  update_obj_attrs_values (_create_random_asmt special r) all_objs_attrs_names
    [("title", title), ("id", id), ("href", href), ("url", url),
     ("type", type), ("object", object), ("audit", audit),
     ("creators", creators), ("assignees", assignees),
     ("primary_contact", primary_contact), ("is_verified", is_verified),
     ("code", code), ("state", state), ("last_update", last_update)]

/-- `AssessmentsFactory.generate`: one assessment per object under the
template, enumerated from (external total count + 1); each is built by
`create` with a derived title, a sequential `ASSESSMENT-` code and the
audit's title as the audit reference.  The count-service result is the
parameter `actual_count` (modelled from the spec) and the per-call random
draws are `rands`. -/
def asmtsGenerate (actual_count : Nat) (objs_under_asmt_tmpl : List Obj)
    (audit : Obj) (special : String) (rands : Nat → EntityRand) : List Obj :=
  (List.enumFrom (actual_count + 1) objs_under_asmt_tmpl).map (fun p =>
    asmtsCreate special (rands p.1)
      (PyVal.str ((p.2 "title").strD ++ " assessment for " ++ (audit "title").strD))
      PyVal.none PyVal.none PyVal.none PyVal.none PyVal.none
      (audit "title") PyVal.none PyVal.none PyVal.none PyVal.none
      (PyVal.str (pyUpper obj_asmt ++ "-" ++ Nat.repr p.1))
      PyVal.none PyVal.none)

/-- `IssuesFactory._create_random_issue`. -/
def _create_random_issue (special : String) (r : EntityRand) : Obj :=
  setattr (setattr (setattr (setattr (setattr (setattr emptyEntity
    "title" (PyVal.str (_generate_title special obj_issue r.titleUuid r.titlePick)))
    "type" (PyVal.str obj_issue))
    "code" (PyVal.str (_generate_code r.codeUuid)))
    "owner" (PyVal.str DEFAULT_USER))
    "primary_contact" (PyVal.str DEFAULT_USER))
    "state" (PyVal.str STATE_DRAFT)

/-- `IssuesFactory.create`. -/
def issuesCreate (special : String) (r : EntityRand)
    (title id href url type audit owner primary_contact code state last_update :
     PyVal) : Obj :=
  update_obj_attrs_values (_create_random_issue special r) all_objs_attrs_names
    [("title", title), ("id", id), ("href", href), ("url", url),
     ("type", type), ("audit", audit), ("owner", owner),
     ("primary_contact", primary_contact), ("code", code), ("state", state),
     ("last_update", last_update)]

/-- The random draws one `CAFactory.create` call performs: draws for the
random base entity (kind choice, title uuid and characters, definition-type
choice), for the title regenerated when a `ca_type` override is given, and
for the generated multi-choice options. -/
structure CARand where
  caType : String
  baseUuid : String
  basePick : Nat → Char
  defType : String
  regenUuid : String
  regenPick : Nat → Char
  mcoGen : Nat → String

/-- `CAFactory._create_random_ca`: random kind, a title generated from that
kind, and a random definition type. -/
def _create_random_ca (special : String) (r : CARand) : Obj :=
  setattr (setattr (setattr emptyEntity
    "ca_type" (PyVal.str r.caType))
    "title" (PyVal.str (_generate_title special r.caType r.baseUuid r.basePick)))
    "definition_type" (PyVal.str r.defType)

/-- `CAFactory._fill_ca_entity_fields`, if-chain for if-chain: a truthy
`ca_type` override replaces the kind and regenerates the title; a truthy
`definition_type` override replaces the definition type; a truthy `title`
override writes the `definition_type` keyword value into `title` (the
source really does that); `placeholder` is applied only for the Text and
Rich Text kinds; a dropdown kind always receives multi-choice options,
either the supplied ones or three generated strings. -/
def fill_ca_type_step (special : String) (r : CARand) (ca_type : PyVal)
    (o : Obj) : Obj :=
  if ca_type.truthy then
    setattr (setattr o "ca_type" ca_type) "title"
      (PyVal.str (_generate_title special ca_type.strD r.regenUuid r.regenPick))
  else o

def fill_definition_type_step (definition_type : PyVal) (o : Obj) : Obj :=
  if definition_type.truthy then setattr o "definition_type" definition_type
  else o

def fill_title_step (title definition_type : PyVal) (o : Obj) : Obj :=
  if title.truthy then setattr o "title" definition_type else o

def fill_placeholder_step (placeholder : PyVal) (o : Obj) : Obj :=
  if placeholder.truthy &&
      (pyEq (o "ca_type") (PyVal.str CA_TEXT) ||
       pyEq (o "ca_type") (PyVal.str CA_RICH_TEXT)) then
    setattr o "placeholder" placeholder
  else o

def fill_helptext_step (helptext : PyVal) (o : Obj) : Obj :=
  if helptext.truthy then setattr o "helptext" helptext else o

def fill_is_mandatory_step (is_mandatory : PyVal) (o : Obj) : Obj :=
  if is_mandatory.truthy then setattr o "is_mandatory" is_mandatory else o

def fill_ca_global_step (ca_global : PyVal) (o : Obj) : Obj :=
  if ca_global.truthy then setattr o "ca_global" ca_global else o

def fill_mco_step (r : CARand) (multi_choice_options : PyVal) (o : Obj) : Obj :=
  if pyEq (o "ca_type") (PyVal.str CA_DROPDOWN) then
    if multi_choice_options.truthy = true ∧ multi_choice_options ≠ PyVal.none then
      setattr o "multi_choice_options" multi_choice_options
    else
      setattr o "multi_choice_options"
        (PyVal.strlist (random_list_strings 3 r.mcoGen))
  else o

def _fill_ca_entity_fields (special : String) (r : CARand) (ca_object : Obj)
    (title ca_type definition_type helptext placeholder multi_choice_options
     is_mandatory ca_global : PyVal) : Obj :=
  fill_mco_step r multi_choice_options
    (fill_ca_global_step ca_global
      (fill_is_mandatory_step is_mandatory
        (fill_helptext_step helptext
          (fill_placeholder_step placeholder
            (fill_title_step title definition_type
              (fill_definition_type_step definition_type
                (fill_ca_type_step special r ca_type ca_object)))))))

/-- First character upper-cased, used by the normal-form transform. -/
def capitalize_word (w : String) : String :=
  match w.toList with
  | [] => ""
  | c :: cs => String.mk (c.toUpper :: cs)

/-- Modelled from the spec: `objects.get_normal_form` (not among the
verified sources) transforms an internal definition-type name to its
display/title form, capitalizing the underscore-separated words. -/
def get_normal_form (s : String) : String :=
  String.intercalate " " ((s.splitOn "_").map capitalize_word)

/-- `CAFactory._normalize_ca_definition_type`. -/
def _normalize_ca_definition_type (ca_object : Obj) : Obj :=
  setattr ca_object "definition_type"
    (match ca_object "definition_type" with
     | PyVal.str s => PyVal.str (get_normal_form s)
     | v => v)

/-- `CAFactory.create`: random base, field fill, definition-type
normalization.  The Python defaults are `helptext=""`,
`multi_choice_options=None`, `is_mandatory=False`, `ca_global=True`; calls
below pass the effective keyword values explicitly. -/
def caCreate (special : String) (r : CARand)
    (title ca_type definition_type helptext placeholder multi_choice_options
     is_mandatory ca_global : PyVal) : Obj :=
  _normalize_ca_definition_type
    (_fill_ca_entity_fields special r (_create_random_ca special r)
      title ca_type definition_type helptext placeholder multi_choice_options
      is_mandatory ca_global)

/-- A concrete audit entity (most recently created: id 1), used in
witnesses and counterexamples. -/
def demoAudit : Obj := fun a =>
  if a = "id" then PyVal.int 1 else
  if a = "title" then PyVal.str "A" else
  if a = "href" then PyVal.str "audits/1" else
  if a = "url" then PyVal.str "au/1" else PyVal.none

/-- A concrete assessment-template entity with id 1. -/
def demoTmpl : Obj := fun a =>
  if a = "id" then PyVal.int 1 else
  if a = "title" then PyVal.str "T" else
  if a = "href" then PyVal.str "templates/1" else
  if a = "url" then PyVal.str "tm/1" else PyVal.none

theorem truthy_str_iff (s : String) : (PyVal.str s).truthy = true ↔ s ≠ "" := by
  simp [PyVal.truthy]

theorem append_ne_empty_left (a b : String) (ha : a ≠ "") : a ++ b ≠ "" := by
  intro h
  have hd : a.data ++ b.data = ([] : List Char) := by
    have hc := congrArg String.data h
    rwa [String.data_append] at hc
  exact ha (String.ext (List.append_eq_nil.mp hd).1)

theorem append_ne_empty_right (a b : String) (hb : b ≠ "") : a ++ b ≠ "" := by
  intro h
  have hd : a.data ++ b.data = ([] : List Char) := by
    have hc := congrArg String.data h
    rwa [String.data_append] at hc
  exact hb (String.ext (List.append_eq_nil.mp hd).2)

/-- C2: when the count service reports a total different from the source
entity's id, both `AuditsFactory.clone` and
`AssessmentTemplatesFactory.clone` produce nothing (the Python functions
fall off the end, returning `None`); in this total functional model no
error is raised and the source entities are untouched (entities are values
and the clones operate on deep copies). -/
theorem c2_clone_stale_guard (actual_count : Nat) (n : Int) (audit tmpl : Obj)
    (k1 k2 : Nat) (hid1 : audit "id" = PyVal.int n)
    (hid2 : tmpl "id" = PyVal.int n) (hne : Int.ofNat actual_count ≠ n) :
    auditsClone actual_count audit k1 = Option.none ∧
    asmtTmplsClone actual_count tmpl k2 = Option.none := by
  have hc : pyEq (PyVal.int (Int.ofNat actual_count)) (PyVal.int n) = false := by
    simp only [pyEq, PyVal.toNumber?, beq_eq_false_iff_ne, ne_eq]
    exact_mod_cast hne
  constructor
  · unfold auditsClone
    rw [hid1, hc]
    simp
  · unfold asmtTmplsClone
    rw [hid2, hc]
    simp

theorem c2_witness :
    auditsClone 2 demoAudit 1 = Option.none ∧
    asmtTmplsClone 2 demoTmpl 3 = Option.none :=
  c2_clone_stale_guard 2 1 demoAudit demoTmpl 1 3 (by decide) (by decide)
    (by decide)

/-- The custom-attribute kind effectively in force after the override
phase: the `ca_type` override when truthy, else the random base kind. -/
def effective_ca_type (r : CARand) (ca_type : PyVal) : PyVal :=
  if ca_type.truthy then ca_type else PyVal.str r.caType

theorem setattr_apply (o : Obj) (n : String) (v : PyVal) (a : String) :
    setattr o n v a = if a = n then v else o a := rfl

theorem fill_ca_type_step_apply (special : String) (r : CARand)
    (ca_type : PyVal) (o : Obj) (a : String) :
    fill_ca_type_step special r ca_type o a =
      if ca_type.truthy = true then
        (if a = "title" then
          PyVal.str (_generate_title special ca_type.strD r.regenUuid r.regenPick)
         else if a = "ca_type" then ca_type else o a)
      else o a := by
  unfold fill_ca_type_step
  by_cases h : ca_type.truthy <;> simp [h, setattr_apply]

theorem fill_definition_type_step_apply (definition_type : PyVal) (o : Obj)
    (a : String) :
    fill_definition_type_step definition_type o a =
      if definition_type.truthy = true ∧ a = "definition_type" then
        definition_type
      else o a := by
  unfold fill_definition_type_step
  by_cases h : definition_type.truthy <;> simp [h, setattr_apply]

theorem fill_title_step_apply (title definition_type : PyVal) (o : Obj)
    (a : String) :
    fill_title_step title definition_type o a =
      if title.truthy = true ∧ a = "title" then definition_type else o a := by
  unfold fill_title_step
  by_cases h : title.truthy <;> simp [h, setattr_apply]

theorem fill_placeholder_step_apply (placeholder : PyVal) (o : Obj)
    (a : String) :
    fill_placeholder_step placeholder o a =
      if (placeholder.truthy &&
          (pyEq (o "ca_type") (PyVal.str CA_TEXT) ||
           pyEq (o "ca_type") (PyVal.str CA_RICH_TEXT))) = true ∧
          a = "placeholder" then
        placeholder
      else o a := by
  unfold fill_placeholder_step
  by_cases h : (placeholder.truthy &&
      (pyEq (o "ca_type") (PyVal.str CA_TEXT) ||
       pyEq (o "ca_type") (PyVal.str CA_RICH_TEXT))) = true <;>
    simp [h, setattr_apply]

theorem fill_helptext_step_apply (helptext : PyVal) (o : Obj) (a : String) :
    fill_helptext_step helptext o a =
      if helptext.truthy = true ∧ a = "helptext" then helptext else o a := by
  unfold fill_helptext_step
  by_cases h : helptext.truthy <;> simp [h, setattr_apply]

theorem fill_is_mandatory_step_apply (is_mandatory : PyVal) (o : Obj)
    (a : String) :
    fill_is_mandatory_step is_mandatory o a =
      if is_mandatory.truthy = true ∧ a = "is_mandatory" then is_mandatory
      else o a := by
  unfold fill_is_mandatory_step
  by_cases h : is_mandatory.truthy <;> simp [h, setattr_apply]

theorem fill_ca_global_step_apply (ca_global : PyVal) (o : Obj) (a : String) :
    fill_ca_global_step ca_global o a =
      if ca_global.truthy = true ∧ a = "ca_global" then ca_global else o a := by
  unfold fill_ca_global_step
  by_cases h : ca_global.truthy <;> simp [h, setattr_apply]

theorem fill_mco_step_apply (r : CARand) (multi_choice_options : PyVal)
    (o : Obj) (a : String) :
    fill_mco_step r multi_choice_options o a =
      if pyEq (o "ca_type") (PyVal.str CA_DROPDOWN) = true ∧
          a = "multi_choice_options" then
        (if multi_choice_options.truthy = true ∧
            multi_choice_options ≠ PyVal.none then multi_choice_options
         else PyVal.strlist (random_list_strings 3 r.mcoGen))
      else o a := by
  unfold fill_mco_step
  by_cases h1 : pyEq (o "ca_type") (PyVal.str CA_DROPDOWN) = true
  · by_cases h2 : multi_choice_options.truthy = true ∧
        multi_choice_options ≠ PyVal.none <;> simp [h1, h2, setattr_apply]
  · simp [h1]

theorem caCreate_apply_title (special : String) (r : CARand)
    (title ca_type definition_type helptext placeholder multi_choice_options
     is_mandatory ca_global : PyVal) :
    caCreate special r title ca_type definition_type helptext placeholder
      multi_choice_options is_mandatory ca_global "title" =
      (if title.truthy then definition_type
       else if ca_type.truthy then
         PyVal.str (_generate_title special ca_type.strD r.regenUuid r.regenPick)
       else PyVal.str (_generate_title special r.caType r.baseUuid r.basePick)) := by
  by_cases h1 : title.truthy <;> by_cases h2 : ca_type.truthy <;>
    simp [caCreate, _normalize_ca_definition_type, _fill_ca_entity_fields,
      fill_mco_step_apply, fill_ca_global_step_apply, fill_is_mandatory_step_apply,
      fill_helptext_step_apply, fill_placeholder_step_apply, fill_title_step_apply,
      fill_definition_type_step_apply, fill_ca_type_step_apply,
      _create_random_ca, emptyEntity, setattr_apply, h1, h2]

theorem caCreate_apply_placeholder (special : String) (r : CARand)
    (title ca_type definition_type helptext placeholder multi_choice_options
     is_mandatory ca_global : PyVal) :
    caCreate special r title ca_type definition_type helptext placeholder
      multi_choice_options is_mandatory ca_global "placeholder" =
      (if (placeholder.truthy &&
          (pyEq (effective_ca_type r ca_type) (PyVal.str CA_TEXT) ||
           pyEq (effective_ca_type r ca_type) (PyVal.str CA_RICH_TEXT))) = true
       then placeholder
       else PyVal.none) := by
  by_cases h2 : ca_type.truthy <;>
    by_cases h7 : (placeholder.truthy &&
      (pyEq (effective_ca_type r ca_type) (PyVal.str CA_TEXT) ||
       pyEq (effective_ca_type r ca_type) (PyVal.str CA_RICH_TEXT))) = true <;>
    simp only [effective_ca_type, h2, if_true, if_false, ite_true, ite_false] at h7 <;>
    simp [caCreate, _normalize_ca_definition_type, _fill_ca_entity_fields,
      fill_mco_step_apply, fill_ca_global_step_apply, fill_is_mandatory_step_apply,
      fill_helptext_step_apply, fill_placeholder_step_apply, fill_title_step_apply,
      fill_definition_type_step_apply, fill_ca_type_step_apply,
      _create_random_ca, emptyEntity, setattr_apply, effective_ca_type, h2, h7]

theorem caCreate_apply_mco (special : String) (r : CARand)
    (title ca_type definition_type helptext placeholder multi_choice_options
     is_mandatory ca_global : PyVal) :
    caCreate special r title ca_type definition_type helptext placeholder
      multi_choice_options is_mandatory ca_global "multi_choice_options" =
      (if pyEq (effective_ca_type r ca_type) (PyVal.str CA_DROPDOWN) = true then
        if multi_choice_options.truthy = true ∧ multi_choice_options ≠ PyVal.none
        then multi_choice_options
        else PyVal.strlist (random_list_strings 3 r.mcoGen)
       else PyVal.none) := by
  by_cases h2 : ca_type.truthy <;>
    by_cases h8 : pyEq (effective_ca_type r ca_type) (PyVal.str CA_DROPDOWN) = true <;>
    simp only [effective_ca_type, h2, if_true, if_false, ite_true, ite_false] at h8 <;>
    simp [caCreate, _normalize_ca_definition_type, _fill_ca_entity_fields,
      fill_mco_step_apply, fill_ca_global_step_apply, fill_is_mandatory_step_apply,
      fill_helptext_step_apply, fill_placeholder_step_apply, fill_title_step_apply,
      fill_definition_type_step_apply, fill_ca_type_step_apply,
      _create_random_ca, emptyEntity, setattr_apply, effective_ca_type, h2, h8]

/-- C5: whenever `CAFactory.create` is called with a truthy `title`
override, the returned entity's title is the `definition_type` keyword
argument's value (the source writes
`ca_object.title = ca_object_fields["definition_type"]`), not the supplied
title. -/
theorem c5_title_takes_definition_type (special : String) (r : CARand)
    (title ca_type definition_type helptext placeholder multi_choice_options
     is_mandatory ca_global : PyVal) (h : title.truthy = true) :
    caCreate special r title ca_type definition_type helptext placeholder
      multi_choice_options is_mandatory ca_global "title" = definition_type := by
  rw [caCreate_apply_title]
  simp [h]

/-- Random draws for a concrete custom-attribute create call. -/
def demoCARand : CARand :=
  ⟨"Date", "u", fun _ => 'a', "program", "v", fun _ => 'b', fun _ => "opt"⟩

theorem c5_witness :
    caCreate "!#" demoCARand (PyVal.str "My title") PyVal.none
      (PyVal.str "program") (PyVal.str "") PyVal.none PyVal.none
      (PyVal.bool false) (PyVal.bool true) "title" = PyVal.str "program" :=
  c5_title_takes_definition_type "!#" demoCARand (PyVal.str "My title")
    PyVal.none (PyVal.str "program") (PyVal.str "") PyVal.none PyVal.none
    (PyVal.bool false) (PyVal.bool true) (by decide)

/-- C10: a truthy `title` override together with the default
`definition_type=None` leaves the entity's title set to `None`: the
supplied title is discarded and the non-empty-title expectation is
violated. -/
theorem c10_title_none_without_definition_type (special : String) (r : CARand)
    (title ca_type helptext placeholder multi_choice_options is_mandatory
     ca_global : PyVal) (h : title.truthy = true) :
    caCreate special r title ca_type PyVal.none helptext placeholder
      multi_choice_options is_mandatory ca_global "title" = PyVal.none ∧
    caCreate special r title ca_type PyVal.none helptext placeholder
      multi_choice_options is_mandatory ca_global "title" ≠ title := by
  have h1 : caCreate special r title ca_type PyVal.none helptext placeholder
      multi_choice_options is_mandatory ca_global "title" = PyVal.none := by
    rw [caCreate_apply_title]
    simp [h]
  refine ⟨h1, ?_⟩
  rw [h1]
  intro heq
  rw [← heq] at h
  simp [PyVal.truthy] at h

theorem c10_witness :
    caCreate "!#" demoCARand (PyVal.str "My title") PyVal.none PyVal.none
      (PyVal.str "") PyVal.none PyVal.none (PyVal.bool false)
      (PyVal.bool true) "title" = PyVal.none :=
  (c10_title_none_without_definition_type "!#" demoCARand
    (PyVal.str "My title") PyVal.none (PyVal.str "") PyVal.none PyVal.none
    (PyVal.bool false) (PyVal.bool true) (by decide)).1

/-- C6 counterexample: the claim quantifies over every placeholder override
value, but a falsy override (here the explicitly supplied empty string)
fails the source's truthiness check and is NOT applied even though the
effective kind is Text: the returned entity's placeholder stays unset
(`None`), not the supplied `""`. -/
theorem c6_counterexample :
    caCreate "!#" demoCARand PyVal.none (PyVal.str "Text") PyVal.none
      (PyVal.str "") (PyVal.str "") PyVal.none (PyVal.bool false)
      (PyVal.bool true) "placeholder" = PyVal.none ∧
    PyVal.none ≠ PyVal.str "" := by
  constructor
  · decide
  · decide

/-- C6 (amended): a truthy placeholder override is applied exactly when the
effective ca_type is Text or Rich Text; for every other kind the
placeholder field stays unset whatever the override, and a falsy override
is never applied (it leaves the field unset even for the free-text
kinds). -/
theorem c6_placeholder_policy (special : String) (r : CARand)
    (title ca_type definition_type helptext placeholder multi_choice_options
     is_mandatory ca_global : PyVal) :
    (placeholder.truthy = true →
      (pyEq (effective_ca_type r ca_type) (PyVal.str CA_TEXT) ||
       pyEq (effective_ca_type r ca_type) (PyVal.str CA_RICH_TEXT)) = true →
      caCreate special r title ca_type definition_type helptext placeholder
        multi_choice_options is_mandatory ca_global "placeholder" = placeholder) ∧
    ((pyEq (effective_ca_type r ca_type) (PyVal.str CA_TEXT) ||
      pyEq (effective_ca_type r ca_type) (PyVal.str CA_RICH_TEXT)) = false →
      caCreate special r title ca_type definition_type helptext placeholder
        multi_choice_options is_mandatory ca_global "placeholder" = PyVal.none) ∧
    (placeholder.truthy = false →
      caCreate special r title ca_type definition_type helptext placeholder
        multi_choice_options is_mandatory ca_global "placeholder" = PyVal.none) := by
  refine ⟨?_, ?_, ?_⟩
  · intro h1 h2
    rw [caCreate_apply_placeholder]
    simp [h1, h2]
  · intro h2
    rw [caCreate_apply_placeholder]
    simp [h2]
  · intro h1
    rw [caCreate_apply_placeholder]
    simp [h1]

theorem c6_witness :
    caCreate "!#" demoCARand PyVal.none (PyVal.str "Text") PyVal.none
      (PyVal.str "") (PyVal.str "ph") PyVal.none (PyVal.bool false)
      (PyVal.bool true) "placeholder" = PyVal.str "ph" ∧
    caCreate "!#" demoCARand PyVal.none (PyVal.str "Checkbox") PyVal.none
      (PyVal.str "") (PyVal.str "ph") PyVal.none (PyVal.bool false)
      (PyVal.bool true) "placeholder" = PyVal.none := by
  constructor
  · exact (c6_placeholder_policy "!#" demoCARand PyVal.none (PyVal.str "Text")
      PyVal.none (PyVal.str "") (PyVal.str "ph") PyVal.none (PyVal.bool false)
      (PyVal.bool true)).1 (by decide) (by decide)
  · exact (c6_placeholder_policy "!#" demoCARand PyVal.none
      (PyVal.str "Checkbox") PyVal.none (PyVal.str "") (PyVal.str "ph")
      PyVal.none (PyVal.bool false) (PyVal.bool true)).2.1 (by decide)

/-- C7: when the effective kind is Dropdown and no multi-choice-options
override is supplied (the keyword defaults to `None`), the returned
entity's options are the three generated strings; when the effective kind
is not Dropdown the options field is never set, whatever override is
supplied. -/
theorem c7_multi_choice_options (special : String) (r : CARand)
    (title ca_type definition_type helptext placeholder multi_choice_options
     is_mandatory ca_global : PyVal) :
    (pyEq (effective_ca_type r ca_type) (PyVal.str CA_DROPDOWN) = true →
      caCreate special r title ca_type definition_type helptext placeholder
        PyVal.none is_mandatory ca_global "multi_choice_options" =
        PyVal.strlist (random_list_strings 3 r.mcoGen) ∧
      (random_list_strings 3 r.mcoGen).length = 3) ∧
    (pyEq (effective_ca_type r ca_type) (PyVal.str CA_DROPDOWN) = false →
      caCreate special r title ca_type definition_type helptext placeholder
        multi_choice_options is_mandatory ca_global "multi_choice_options" =
        PyVal.none) := by
  constructor
  · intro h1
    constructor
    · rw [caCreate_apply_mco]
      simp [h1, PyVal.truthy]
    · simp [random_list_strings]
  · intro h1
    rw [caCreate_apply_mco]
    simp [h1]

/-- The length of a strlist value, for binder-free witnesses. -/
def pyListLen : PyVal → Option Nat
  | .strlist xs => some xs.length
  | _ => Option.none

theorem c7_witness :
    pyListLen (caCreate "!#" demoCARand PyVal.none (PyVal.str "Dropdown")
      PyVal.none (PyVal.str "") PyVal.none PyVal.none (PyVal.bool false)
      (PyVal.bool true) "multi_choice_options") = some 3 ∧
    caCreate "!#" demoCARand PyVal.none (PyVal.str "Text") PyVal.none
      (PyVal.str "") PyVal.none (PyVal.strlist ["a", "b"]) (PyVal.bool false)
      (PyVal.bool true) "multi_choice_options" = PyVal.none := by
  constructor
  · have h := (c7_multi_choice_options "!#" demoCARand PyVal.none
      (PyVal.str "Dropdown") PyVal.none (PyVal.str "") PyVal.none PyVal.none
      (PyVal.bool false) (PyVal.bool true)).1 (by decide)
    rw [h.1]
    simp [pyListLen, h.2]
  · exact (c7_multi_choice_options "!#" demoCARand PyVal.none
      (PyVal.str "Text") PyVal.none (PyVal.str "") PyVal.none
      (PyVal.strlist ["a", "b"]) (PyVal.bool false) (PyVal.bool true)).2
      (by decide)

/-- C8: `create()` with no overrides returns, for every domain-type
factory, an entity whose `type` field is that domain type's canonical
singular name (all keyword arguments default to `None`, which is falsy, so
the update phase changes nothing and the type set by the random-entity
phase remains). -/
theorem pairs_all_none (l : List String) (p : String × PyVal)
    (hp : p ∈ l.map (fun n => (n, PyVal.none))) : p.2 = PyVal.none := by
  rw [List.mem_map] at hp
  obtain ⟨n, _, rfl⟩ := hp
  rfl

theorem c8_create_type_canonical (special : String) (r : EntityRand) :
    personsCreate special r PyVal.none PyVal.none PyVal.none PyVal.none
      PyVal.none PyVal.none PyVal.none "type" = PyVal.str obj_person ∧
    programsCreate special r PyVal.none PyVal.none PyVal.none PyVal.none
      PyVal.none PyVal.none PyVal.none PyVal.none PyVal.none PyVal.none
      "type" = PyVal.str obj_program ∧
    controlsCreate special r PyVal.none PyVal.none PyVal.none PyVal.none
      PyVal.none PyVal.none PyVal.none PyVal.none PyVal.none PyVal.none
      "type" = PyVal.str obj_control ∧
    auditsCreate special r PyVal.none PyVal.none PyVal.none PyVal.none
      PyVal.none PyVal.none PyVal.none PyVal.none PyVal.none PyVal.none
      "type" = PyVal.str obj_audit ∧
    asmtTmplsCreate special r PyVal.none PyVal.none PyVal.none PyVal.none
      PyVal.none PyVal.none PyVal.none PyVal.none PyVal.none PyVal.none
      PyVal.none "type" = PyVal.str obj_asmt_tmpl ∧
    asmtsCreate special r PyVal.none PyVal.none PyVal.none PyVal.none
      PyVal.none PyVal.none PyVal.none PyVal.none PyVal.none PyVal.none
      PyVal.none PyVal.none PyVal.none PyVal.none "type" = PyVal.str obj_asmt ∧
    issuesCreate special r PyVal.none PyVal.none PyVal.none PyVal.none
      PyVal.none PyVal.none PyVal.none PyVal.none PyVal.none PyVal.none
      PyVal.none "type" = PyVal.str obj_issue := by
  refine ⟨?_, ?_, ?_, ?_, ?_, ?_, ?_⟩
  · unfold personsCreate
    rw [update_all_none _ _ _ (by intro p hp; exact pairs_all_none ["title", "id", "href", "url", "type", "email", "authorizations"] p hp)]
    simp [_create_random_person, setattr_apply]
  · unfold programsCreate
    rw [update_all_none _ _ _ (by intro p hp; exact pairs_all_none ["title", "id", "href", "url", "type", "manager", "primary_contact", "code", "state", "last_update"] p hp)]
    simp [_create_random_program, setattr_apply]
  · unfold controlsCreate
    rw [update_all_none _ _ _ (by intro p hp; exact pairs_all_none ["title", "id", "href", "url", "type", "owner", "primary_contact", "code", "state", "last_update"] p hp)]
    simp [_create_random_control, setattr_apply]
  · unfold auditsCreate
    rw [update_all_none _ _ _ (by intro p hp; exact pairs_all_none ["title", "id", "href", "url", "type", "program", "audit_lead", "code", "status", "last_update"] p hp)]
    simp [_create_random_audit, setattr_apply]
  · unfold asmtTmplsCreate
    rw [update_all_none _ _ _ (by intro p hp; exact pairs_all_none ["title", "id", "href", "url", "type", "audit", "asmt_objects", "def_assessors", "def_verifiers", "code", "last_update"] p hp)]
    simp [_create_random_asmt_tmpl, setattr_apply]
  · unfold asmtsCreate
    rw [update_all_none _ _ _ (by intro p hp; exact pairs_all_none ["title", "id", "href", "url", "type", "object", "audit", "creators", "assignees", "primary_contact", "is_verified", "code", "state", "last_update"] p hp)]
    simp [_create_random_asmt, setattr_apply]
  · unfold issuesCreate
    rw [update_all_none _ _ _ (by intro p hp; exact pairs_all_none ["title", "id", "href", "url", "type", "audit", "owner", "primary_contact", "code", "state", "last_update"] p hp)]
    simp [_create_random_issue, setattr_apply]

/-- C9: `_generate_title` produces
`"{obj_type}_{uuid}_{special-character suffix}"`, and the suffix has length
equal to the size of the full special-character alphabet and is drawn from
that alphabet (the hypothesis on `pick` is the modelled contract of
`string_utils.random_string`). -/
theorem c9_generate_title_shape (special obj_type uuid : String)
    (pick : Nat → Char) (hp : ∀ i, pick i ∈ special.toList) :
    _generate_title special obj_type uuid pick =
      obj_type ++ "_" ++ uuid ++ "_" ++ random_string special.length pick ∧
    (random_string special.length pick).length = special.length ∧
    ∀ c ∈ (random_string special.length pick).toList, c ∈ special.toList := by
  refine ⟨rfl, ?_, ?_⟩
  · simp [random_string]
  · intro c hc
    have hc2 : c ∈ (List.range special.length).map pick := hc
    rw [List.mem_map] at hc2
    obtain ⟨i, _, hip⟩ := hc2
    rw [← hip]
    exact hp i

/-- A concrete character choice landing in the demo alphabet. -/
def demoPick : Nat → Char := fun _ => '!'

theorem c9_witness :
    _generate_title "!#" "person" "u" demoPick =
      "person" ++ "_" ++ "u" ++ "_" ++ random_string ("!#").length demoPick ∧
    (random_string ("!#").length demoPick).length = ("!#").length := by
  have h := c9_generate_title_shape "!#" "person" "u" demoPick
    (by intro i; show demoPick i ∈ ("!#").toList; unfold demoPick; decide)
  exact ⟨h.1, h.2.1⟩

theorem toDigitsCore_ne_nil (b f n : Nat) (d : List Char) (hd : d ≠ []) :
    Nat.toDigitsCore b f n d ≠ [] := by
  induction f generalizing n d with
  | zero => simpa [Nat.toDigitsCore] using hd
  | succ f ih =>
      simp only [Nat.toDigitsCore]
      split
      · simp
      · exact ih _ _ (by simp)

theorem toDigits_ne_nil (b n : Nat) : Nat.toDigits b n ≠ [] := by
  unfold Nat.toDigits
  simp only [Nat.toDigitsCore]
  split
  · simp
  · exact toDigitsCore_ne_nil _ _ _ _ (by simp)

theorem natRepr_ne_empty (n : Nat) : Nat.repr n ≠ "" := by
  intro hrepr
  have hnil : Nat.toDigits 10 n = [] := by
    have hc := congrArg String.data hrepr
    simpa [Nat.repr, List.asString] using hc
  exact toDigits_ne_nil 10 n hnil

theorem intRepr_ofNat (m : Nat) : Int.repr (Int.ofNat m) = Nat.repr m := rfl

/-- The field of the i-th produced clone, for stating the clone claims
without binders over the clone entities themselves. -/
def cloneField (c : Option (List Obj)) (i : Nat) (name : String) :
    Option PyVal :=
  (c.bind fun l => l.get? i).map fun e => e name

theorem cloneField_map_range (f : Nat → Obj) (k i : Nat) (hi : i < k)
    (name : String) :
    cloneField (some ((List.range k).map f)) i name = some (f i name) := by
  unfold cloneField
  simp [List.get?_eq_getElem?, List.getElem?_map, List.getElem?_range hi]

theorem pyEq_int_self (m : Int) : pyEq (PyVal.int m) (PyVal.int m) = true := by
  simp [pyEq, PyVal.toNumber?]

theorem dictGet_nil (m : String) : dictGet [] m = PyVal.none := rfl

theorem dictGet_cons (n m : String) (v : PyVal) (rest : Args) :
    dictGet ((n, v) :: rest) m = if m = n then v else dictGet rest m := by
  by_cases hmn : m = n
  · subst hmn
    simp [dictGet, List.find?]
  · have hne : (n == m) = false := by
      simp [beq_eq_false_iff_ne]
      exact fun hk => hmn hk.symm
    simp only [dictGet, List.find?, hne, if_neg hmn]

theorem auditsClone_eq (total k : Nat) (audit : Obj) (t h u : String)
    (hid : audit "id" = PyVal.int (Int.ofNat total))
    (ht : audit "title" = PyVal.str t)
    (hh : audit "href" = PyVal.str h) (hu : audit "url" = PyVal.str u) :
    auditsClone total audit k = some ((List.range k).map fun i =>
      update_obj_attrs_values audit all_objs_attrs_names
        [("title", PyVal.str (t ++ " - copy " ++ Nat.repr (i + 1))),
         ("id", PyVal.int (Int.ofNat (total + (i + 1)))),
         ("href", PyVal.str (pySubTrailingDigits (Nat.repr (total + (i + 1))) h)),
         ("url", PyVal.str (pySubTrailingDigits (Nat.repr (total + (i + 1))) u)),
         ("code", PyVal.str ("AUDIT-" ++ Nat.repr (total + (i + 1))))]) := by
  unfold auditsClone
  rw [hid, ht, hh, hu]
  rw [if_pos (pyEq_int_self (Int.ofNat total))]
  simp only [PyVal.strD, PyVal.toNumber?, Option.getD_some]
  have hadd : ∀ m2 : Nat, Int.ofNat total + Int.ofNat m2 = Int.ofNat (total + m2) :=
    fun m2 => rfl
  simp only [hadd, intRepr_ofNat]
  have hcp : (pyUpper obj_audit ++ "-" : String) = "AUDIT-" := by decide
  simp only [hcp]

theorem asmtTmplsClone_eq (total k : Nat) (tmpl : Obj) (h u : String)
    (hid : tmpl "id" = PyVal.int (Int.ofNat total))
    (hh : tmpl "href" = PyVal.str h) (hu : tmpl "url" = PyVal.str u) :
    asmtTmplsClone total tmpl k = some ((List.range k).map fun i =>
      update_obj_attrs_values tmpl all_objs_attrs_names
        [("id", PyVal.int (Int.ofNat (total + (i + 1)))),
         ("href", PyVal.str (pySubTrailingDigits (Nat.repr (total + (i + 1))) h)),
         ("url", PyVal.str (pySubTrailingDigits (Nat.repr (total + (i + 1))) u)),
         ("code", PyVal.str ("TEMPLATE-" ++ Nat.repr (total + (i + 1))))]) := by
  unfold asmtTmplsClone
  rw [hid, hh, hu]
  rw [if_pos (pyEq_int_self (Int.ofNat total))]
  simp only [PyVal.strD, PyVal.toNumber?, Option.getD_some]
  have hadd : ∀ m2 : Nat, Int.ofNat total + Int.ofNat m2 = Int.ofNat (total + m2) :=
    fun m2 => rfl
  simp only [hadd, intRepr_ofNat]

theorem auditsClone_elem (total k i : Nat) (audit : Obj) (hi : i < k)
    (t h u : String)
    (hid : audit "id" = PyVal.int (Int.ofNat total))
    (ht : audit "title" = PyVal.str t)
    (hh : audit "href" = PyVal.str h) (hu : audit "url" = PyVal.str u)
    (hhd : endsInDigit h = true) (hud : endsInDigit u = true) :
    cloneField (auditsClone total audit k) i "title" =
      some (PyVal.str (t ++ " - copy " ++ Nat.repr (i + 1))) ∧
    cloneField (auditsClone total audit k) i "id" =
      some (PyVal.int (Int.ofNat (total + (i + 1)))) ∧
    cloneField (auditsClone total audit k) i "href" =
      some (PyVal.str (stripTrailing h ++ Nat.repr (total + (i + 1)))) ∧
    cloneField (auditsClone total audit k) i "url" =
      some (PyVal.str (stripTrailing u ++ Nat.repr (total + (i + 1)))) ∧
    cloneField (auditsClone total audit k) i "code" =
      some (PyVal.str ("AUDIT-" ++ Nat.repr (total + (i + 1)))) ∧
    ∀ a, a ∉ (["title", "id", "href", "url", "code"] : List String) →
      cloneField (auditsClone total audit k) i a = some (audit a) := by
  have hc := auditsClone_eq total k audit t h u hid ht hh hu
  have hsub_h := pySub_of_endsInDigit (Nat.repr (total + (i + 1))) h hhd
  have hsub_u := pySub_of_endsInDigit (Nat.repr (total + (i + 1))) u hud
  have ht1 : (t ++ " - copy " ++ Nat.repr (i + 1)) ≠ "" :=
    append_ne_empty_left _ _ (append_ne_empty_right t " - copy " (by decide))
  have hhref1 : stripTrailing h ++ Nat.repr (total + (i + 1)) ≠ "" :=
    append_ne_empty_right _ _ (natRepr_ne_empty _)
  have hurl1 : stripTrailing u ++ Nat.repr (total + (i + 1)) ≠ "" :=
    append_ne_empty_right _ _ (natRepr_ne_empty _)
  have hcode1 : ("AUDIT-" ++ Nat.repr (total + (i + 1)) : String) ≠ "" :=
    append_ne_empty_left _ _ (by decide)
  refine ⟨?_, ?_, ?_, ?_, ?_, ?_⟩
  · rw [hc, cloneField_map_range _ _ _ hi, update_apply]
    simp [dictGet_cons, dictGet_nil, all_objs_attrs_names, PyVal.truthy, ht1]
  · rw [hc, cloneField_map_range _ _ _ hi, update_apply]
    simp [dictGet_cons, dictGet_nil, all_objs_attrs_names, PyVal.truthy]
    intro hz
    exfalso
    omega
  · rw [hc, cloneField_map_range _ _ _ hi, update_apply]
    rw [hsub_h.1]
    simp [dictGet_cons, dictGet_nil, all_objs_attrs_names, PyVal.truthy, hhref1]
  · rw [hc, cloneField_map_range _ _ _ hi, update_apply]
    rw [hsub_u.1]
    simp [dictGet_cons, dictGet_nil, all_objs_attrs_names, PyVal.truthy, hurl1]
  · rw [hc, cloneField_map_range _ _ _ hi, update_apply]
    simp [dictGet_cons, dictGet_nil, all_objs_attrs_names, PyVal.truthy, hcode1]
  · intro a hmem
    rw [hc, cloneField_map_range _ _ _ hi, update_apply]
    simp only [List.mem_cons, List.not_mem_nil, or_false, not_or] at hmem
    obtain ⟨h1, h2, h3, h4, h5⟩ := hmem
    simp [dictGet_cons, dictGet_nil, h1, h2, h3, h4, h5, PyVal.truthy]

theorem asmtTmplsClone_elem (total k i : Nat) (tmpl : Obj) (hi : i < k)
    (t2 h2 u2 : String)
    (hid : tmpl "id" = PyVal.int (Int.ofNat total))
    (ht : tmpl "title" = PyVal.str t2)
    (hh : tmpl "href" = PyVal.str h2) (hu : tmpl "url" = PyVal.str u2)
    (hhd : endsInDigit h2 = true) (hud : endsInDigit u2 = true) :
    cloneField (asmtTmplsClone total tmpl k) i "title" =
      some (PyVal.str t2) ∧
    cloneField (asmtTmplsClone total tmpl k) i "id" =
      some (PyVal.int (Int.ofNat (total + (i + 1)))) ∧
    cloneField (asmtTmplsClone total tmpl k) i "href" =
      some (PyVal.str (stripTrailing h2 ++ Nat.repr (total + (i + 1)))) ∧
    cloneField (asmtTmplsClone total tmpl k) i "url" =
      some (PyVal.str (stripTrailing u2 ++ Nat.repr (total + (i + 1)))) ∧
    cloneField (asmtTmplsClone total tmpl k) i "code" =
      some (PyVal.str ("TEMPLATE-" ++ Nat.repr (total + (i + 1)))) ∧
    ∀ a, a ∉ (["id", "href", "url", "code"] : List String) →
      cloneField (asmtTmplsClone total tmpl k) i a = some (tmpl a) := by
  have hc := asmtTmplsClone_eq total k tmpl h2 u2 hid hh hu
  have hsub_h := pySub_of_endsInDigit (Nat.repr (total + (i + 1))) h2 hhd
  have hsub_u := pySub_of_endsInDigit (Nat.repr (total + (i + 1))) u2 hud
  have hhref1 : stripTrailing h2 ++ Nat.repr (total + (i + 1)) ≠ "" :=
    append_ne_empty_right _ _ (natRepr_ne_empty _)
  have hurl1 : stripTrailing u2 ++ Nat.repr (total + (i + 1)) ≠ "" :=
    append_ne_empty_right _ _ (natRepr_ne_empty _)
  have hcode1 : ("TEMPLATE-" ++ Nat.repr (total + (i + 1)) : String) ≠ "" :=
    append_ne_empty_left _ _ (by decide)
  refine ⟨?_, ?_, ?_, ?_, ?_, ?_⟩
  · rw [hc, cloneField_map_range _ _ _ hi, update_apply]
    simp [dictGet_cons, dictGet_nil, PyVal.truthy, ht]
  · rw [hc, cloneField_map_range _ _ _ hi, update_apply]
    simp [dictGet_cons, dictGet_nil, all_objs_attrs_names, PyVal.truthy]
    intro hz
    exfalso
    omega
  · rw [hc, cloneField_map_range _ _ _ hi, update_apply]
    rw [hsub_h.1]
    simp [dictGet_cons, dictGet_nil, all_objs_attrs_names, PyVal.truthy, hhref1]
  · rw [hc, cloneField_map_range _ _ _ hi, update_apply]
    rw [hsub_u.1]
    simp [dictGet_cons, dictGet_nil, all_objs_attrs_names, PyVal.truthy, hurl1]
  · rw [hc, cloneField_map_range _ _ _ hi, update_apply]
    simp [dictGet_cons, dictGet_nil, all_objs_attrs_names, PyVal.truthy, hcode1]
  · intro a hmem
    rw [hc, cloneField_map_range _ _ _ hi, update_apply]
    simp only [List.mem_cons, List.not_mem_nil, or_false, not_or] at hmem
    obtain ⟨h1, h2x, h3, h4⟩ := hmem
    simp [dictGet_cons, dictGet_nil, h1, h2x, h3, h4, PyVal.truthy]

/-- C3 counterexample: for the concrete template with id 1 and title "T",
against a count service reporting 1, the single produced clone keeps the
source title "T" exactly — `AssessmentTemplatesFactory.clone` passes no
title override, so no copy suffix of any kind is appended, contrary to the
claim's assertion that both factories suffix the title. -/
theorem c3_counterexample :
    cloneField (asmtTmplsClone 1 demoTmpl 1) 0 "title" =
      some (PyVal.str "T") ∧
    demoTmpl "title" = PyVal.str "T" ∧
    PyVal.str "T" ≠ PyVal.str ("T" ++ " - copy 1") := by
  refine ⟨by decide, by decide, by decide⟩

/-- C3 (amended): when the source's id equals the reported count, both
clones return exactly `count_to_clone` entities; the i-th (0-based) copy
has id `total + (i+1)`, href and url equal to the source's href/url with
the trailing digit run replaced by the new id (the decompositions at the
end witness that the hrefs/urls do end in a non-empty all-digit run), and
code `AUDIT-{new id}` resp. `TEMPLATE-{new id}`; every attribute outside
the overridden ones equals the source's.  Titles differ between the two
factories: audit clones get the source title with the suffix
`" - copy {n}"` appended, while assessment-template clones keep the source
title unchanged. -/
theorem c3_clone_copies (total k : Nat) (audit tmpl : Obj)
    (t h u t2 h2 u2 : String)
    (hid : audit "id" = PyVal.int (Int.ofNat total))
    (ht : audit "title" = PyVal.str t)
    (hh : audit "href" = PyVal.str h) (hu : audit "url" = PyVal.str u)
    (hhd : endsInDigit h = true) (hud : endsInDigit u = true)
    (hid2 : tmpl "id" = PyVal.int (Int.ofNat total))
    (ht2 : tmpl "title" = PyVal.str t2)
    (hh2 : tmpl "href" = PyVal.str h2) (hu2 : tmpl "url" = PyVal.str u2)
    (hhd2 : endsInDigit h2 = true) (hud2 : endsInDigit u2 = true) :
    (auditsClone total audit k).map List.length = some k ∧
    (asmtTmplsClone total tmpl k).map List.length = some k ∧
    (∀ i, i < k →
      cloneField (auditsClone total audit k) i "title" =
        some (PyVal.str (t ++ " - copy " ++ Nat.repr (i + 1))) ∧
      cloneField (auditsClone total audit k) i "id" =
        some (PyVal.int (Int.ofNat (total + (i + 1)))) ∧
      cloneField (auditsClone total audit k) i "href" =
        some (PyVal.str (stripTrailing h ++ Nat.repr (total + (i + 1)))) ∧
      cloneField (auditsClone total audit k) i "url" =
        some (PyVal.str (stripTrailing u ++ Nat.repr (total + (i + 1)))) ∧
      cloneField (auditsClone total audit k) i "code" =
        some (PyVal.str ("AUDIT-" ++ Nat.repr (total + (i + 1)))) ∧
      ∀ a, a ∉ (["title", "id", "href", "url", "code"] : List String) →
        cloneField (auditsClone total audit k) i a = some (audit a)) ∧
    (∀ i, i < k →
      cloneField (asmtTmplsClone total tmpl k) i "title" =
        some (PyVal.str t2) ∧
      cloneField (asmtTmplsClone total tmpl k) i "id" =
        some (PyVal.int (Int.ofNat (total + (i + 1)))) ∧
      cloneField (asmtTmplsClone total tmpl k) i "href" =
        some (PyVal.str (stripTrailing h2 ++ Nat.repr (total + (i + 1)))) ∧
      cloneField (asmtTmplsClone total tmpl k) i "url" =
        some (PyVal.str (stripTrailing u2 ++ Nat.repr (total + (i + 1)))) ∧
      cloneField (asmtTmplsClone total tmpl k) i "code" =
        some (PyVal.str ("TEMPLATE-" ++ Nat.repr (total + (i + 1)))) ∧
      ∀ a, a ∉ (["id", "href", "url", "code"] : List String) →
        cloneField (asmtTmplsClone total tmpl k) i a = some (tmpl a)) ∧
    (h = stripTrailing h ++ String.mk (trailingDigits h) ∧
     trailingDigits h ≠ [] ∧ (trailingDigits h).all Char.isDigit = true) ∧
    (u = stripTrailing u ++ String.mk (trailingDigits u) ∧
     trailingDigits u ≠ [] ∧ (trailingDigits u).all Char.isDigit = true) ∧
    (h2 = stripTrailing h2 ++ String.mk (trailingDigits h2) ∧
     trailingDigits h2 ≠ [] ∧ (trailingDigits h2).all Char.isDigit = true) ∧
    (u2 = stripTrailing u2 ++ String.mk (trailingDigits u2) ∧
     trailingDigits u2 ≠ [] ∧ (trailingDigits u2).all Char.isDigit = true) := by
  refine ⟨?_, ?_, ?_, ?_, ?_, ?_, ?_, ?_⟩
  · rw [auditsClone_eq total k audit t h u hid ht hh hu]
    simp
  · rw [asmtTmplsClone_eq total k tmpl h2 u2 hid2 hh2 hu2]
    simp
  · intro i hi
    exact auditsClone_elem total k i audit hi t h u hid ht hh hu hhd hud
  · intro i hi
    exact asmtTmplsClone_elem total k i tmpl hi t2 h2 u2 hid2 ht2 hh2 hu2
      hhd2 hud2
  · have hp := pySub_of_endsInDigit "" h hhd
    exact ⟨hp.2.1, hp.2.2.1, hp.2.2.2⟩
  · have hp := pySub_of_endsInDigit "" u hud
    exact ⟨hp.2.1, hp.2.2.1, hp.2.2.2⟩
  · have hp := pySub_of_endsInDigit "" h2 hhd2
    exact ⟨hp.2.1, hp.2.2.1, hp.2.2.2⟩
  · have hp := pySub_of_endsInDigit "" u2 hud2
    exact ⟨hp.2.1, hp.2.2.1, hp.2.2.2⟩

theorem c3_witness :
    cloneField (auditsClone 1 demoAudit 1) 0 "title" =
      some (PyVal.str "A - copy 1") ∧
    cloneField (auditsClone 1 demoAudit 1) 0 "code" =
      some (PyVal.str "AUDIT-2") ∧
    cloneField (auditsClone 1 demoAudit 1) 0 "href" =
      some (PyVal.str "audits/2") ∧
    cloneField (asmtTmplsClone 1 demoTmpl 1) 0 "title" =
      some (PyVal.str "T") ∧
    cloneField (asmtTmplsClone 1 demoTmpl 1) 0 "code" =
      some (PyVal.str "TEMPLATE-2") := by
  have h := c3_clone_copies 1 1 demoAudit demoTmpl "A" "audits/1" "au/1" "T"
    "templates/1" "tm/1" (by decide) (by decide) (by decide) (by decide)
    (by decide) (by decide) (by decide) (by decide) (by decide) (by decide)
    (by decide) (by decide)
  have ha := h.2.2.1 0 (by decide)
  have htm := h.2.2.2.1 0 (by decide)
  refine ⟨?_, ?_, ?_, ?_, ?_⟩
  · rw [ha.1]
    decide
  · rw [ha.2.2.2.2.1]
    decide
  · rw [ha.2.2.1]
    decide
  · rw [htm.1]
  · rw [htm.2.2.2.2.1]
    decide

/-- The (title, code, audit) projection of a generated assessment, for
binder-free statements about `asmtsGenerate`. -/
def tcaOf (e : Obj) : PyVal × PyVal × PyVal := (e "title", e "code", e "audit")

theorem asmtsGenerate_get (total : Nat) (objs : List Obj) (audit : Obj)
    (special : String) (rands : Nat → EntityRand) (i : Nat) (oi : Obj)
    (hoi : objs.get? i = some oi) :
    (asmtsGenerate total objs audit special rands).get? i =
      some (asmtsCreate special (rands (total + 1 + i))
        (PyVal.str
          ((oi "title").strD ++ " assessment for " ++ (audit "title").strD))
        PyVal.none PyVal.none PyVal.none PyVal.none PyVal.none
        (audit "title") PyVal.none PyVal.none PyVal.none PyVal.none
        (PyVal.str (pyUpper obj_asmt ++ "-" ++ Nat.repr (total + 1 + i)))
        PyVal.none PyVal.none) := by
  unfold asmtsGenerate
  rw [List.get?_eq_getElem?] at hoi ⊢
  rw [List.getElem?_map, List.getElem?_enumFrom, hoi]
  rfl

/-- An object under a template, with title "a". -/
def demoObjA : Obj := fun a =>
  if a = "title" then PyVal.str "a" else PyVal.none

def demoObjB : Obj := fun a =>
  if a = "title" then PyVal.str "b" else PyVal.none

def demoAuditEmptyTitle : Obj := fun a =>
  if a = "title" then PyVal.str "" else PyVal.none

def demoER : EntityRand := ⟨"tu", fun _ => 'c', "cu", "eu"⟩

def demoRands : Nat → EntityRand := fun _ => demoER

/-- The audit fields of a generated assessment list, for a binder-free
counterexample statement. -/
def auditFieldsOf (l : List Obj) : List PyVal := l.map fun e => e "audit"

/-- C4 counterexample: the claim quantifies over every audit, but with an
audit whose title is the empty string the `audit=audit.title` override is
falsy and skipped, so the generated assessment's audit field stays unset
(`None`) instead of equalling the audit's title `""`. -/
theorem c4_counterexample :
    auditFieldsOf
      (asmtsGenerate 0 [demoObjA] demoAuditEmptyTitle "!#" demoRands) =
      [PyVal.none] ∧
    demoAuditEmptyTitle "title" = PyVal.str "" ∧
    PyVal.none ≠ PyVal.str "" := by
  refine ⟨by decide, by decide, by decide⟩

/-- C4 (amended): with a count service reporting `total` and an audit whose
title is non-empty (truthy), `generate` returns one assessment per input
object in input order; the i-th (0-based) assessment has title
`"{object.title} assessment for {audit.title}"`, code
`"ASSESSMENT-{total+1+i}"` and audit field equal to the audit's title.
With an empty audit title the audit override would be falsy and skipped,
leaving the audit field unset. -/
theorem c4_generate_assessments (total : Nat) (objs : List Obj) (audit : Obj)
    (special : String) (rands : Nat → EntityRand) (ta : String)
    (hta : audit "title" = PyVal.str ta) (hta0 : ta ≠ "") :
    (asmtsGenerate total objs audit special rands).length = objs.length ∧
    ∀ i oi, objs.get? i = some oi → ∀ ti, oi "title" = PyVal.str ti →
      ((asmtsGenerate total objs audit special rands).get? i).map tcaOf =
        some (PyVal.str (ti ++ " assessment for " ++ ta),
          PyVal.str ("ASSESSMENT-" ++ Nat.repr (total + 1 + i)),
          PyVal.str ta) := by
  constructor
  · unfold asmtsGenerate
    simp
  · intro i oi hoi ti hti
    rw [asmtsGenerate_get total objs audit special rands i oi hoi]
    rw [hti, hta]
    have htt : (ti ++ " assessment for " ++ ta) ≠ "" :=
      append_ne_empty_left _ _
        (append_ne_empty_right ti " assessment for " (by decide))
    have hcp : (pyUpper obj_asmt ++ "-" : String) = "ASSESSMENT-" := by decide
    have hc1 : ("ASSESSMENT-" ++ Nat.repr (total + 1 + i) : String) ≠ "" :=
      append_ne_empty_left _ _ (by decide)
    simp only [PyVal.strD, hcp, Option.map_some]
    unfold tcaOf asmtsCreate
    simp [update_apply, dictGet_cons, dictGet_nil, all_objs_attrs_names,
      PyVal.truthy, htt, hc1, hta0]

theorem c4_witness :
    ((asmtsGenerate 5 [demoObjA, demoObjB] demoAudit "!#" demoRands).get? 0).map
      tcaOf =
      some (PyVal.str "a assessment for A", PyVal.str "ASSESSMENT-6",
        PyVal.str "A") ∧
    ((asmtsGenerate 5 [demoObjA, demoObjB] demoAudit "!#" demoRands).get? 1).map
      tcaOf =
      some (PyVal.str "b assessment for A", PyVal.str "ASSESSMENT-7",
        PyVal.str "A") := by
  have h := c4_generate_assessments 5 [demoObjA, demoObjB] demoAudit "!#"
    demoRands "A" (by decide) (by decide)
  constructor
  · rw [h.2 0 demoObjA rfl "a" (by decide)]
    decide
  · rw [h.2 1 demoObjB rfl "b" (by decide)]
    decide
